import Mathlib

/-
Verification of the ViSQOL manager (src/visqol-rs/src/visqol_manager.rs).

Only `visqol_manager.rs` is part of the sources; its collaborators
(`audio_utils::load_as_mono`, `alignment::globally_align`,
`visqol::calculate_similarity`, the patch creators, the quality mappers,
`constants`, `audio_signal`) are external modules. They are embedded
either as explicit function parameters (the loader, the aligner, the
similarity pipeline) or as data modelled from the spec where the claims
need their shape (patch-size constants, signal duration, mapper tags).
-/

/-- Errors of the scoring pipeline, from `visqol_error.rs` (not under
`src/`); only the two variants constructed by `visqol_manager.rs` are
needed, plus a catch-all for the others. -/
inductive VisqolError where
  | differentSampleRates (reference degraded : Nat)
  | failedToAlignSignals
  | other (msg : String)
deriving DecidableEq, Repr

/-- Rust `Box<dyn Error>`: a dynamic error is either one of the pipeline's
own `VisqolError` values or an opaque error produced by an external
collaborator (I/O, decoding, model loading). -/
inductive DynError where
  | visqol (e : VisqolError)
  | external (msg : String)
deriving DecidableEq, Repr

/-- Modelled from the spec: `audio_signal.rs` is not under `src/`.
A Signal is a mono sample sequence plus a sample rate (Hz). -/
structure AudioSignal where
  samples : List ℚ
  sample_rate : Nat
deriving DecidableEq, Repr

/-- Modelled from the spec: derived duration `len(samples) / sample_rate`
(seconds), from `audio_signal.rs` which is not under `src/`. -/
def AudioSignal.get_duration (s : AudioSignal) : ℚ :=
  (s.samples.length : ℚ) / (s.sample_rate : ℚ)

/-- Modelled from the spec: `constants.rs` is not under `src/`; the exact
tolerance value is a calibration constant. The claims are independent of
the value; 1 second is used as a placeholder. -/
def DURATION_MISMATCH_TOLERANCE : ℚ := 1

/-- Modelled from the spec: `constants.rs` is not under `src/`; the patch
width constant used for the Wideband (voice-activity) configuration. The
claims depend only on which constant is paired with which creator, not on
its value. -/
def PATCH_SIZE_AUDIO : Nat := 30

/-- Modelled from the spec: `constants.rs` is not under `src/`; the patch
width constant used for the Fullband (uniform-grid) configuration. -/
def PATCH_SIZE_SPEECH : Nat := 20

/-- The variant selector from `variant.rs` (shape as used by
`VisqolManager::new`). -/
inductive Variant where
  | Wideband (use_unscaled_mos_mapping : Bool)
  | Fullband (model_path : String)
deriving DecidableEq, Repr

/-- The closed set of patch creators dispatched by `VisqolManager::new`:
`VadPatchCreator::new(size)` and `ImagePatchCreator::new(size)`. Their
internals live outside `src/`; the claims only need the tag and the
configured patch size. -/
inductive PatchCreator where
  | vad (patch_size : Nat)
  | image (patch_size : Nat)
deriving DecidableEq, Repr

/-- The similarity measure handed to the patch selector. `new` always
constructs `NeurogramSimiliarityIndexMeasure::default()` (the NSIM
measure). -/
inductive PatchSimilarityMeasure where
  | nsim
deriving DecidableEq, Repr

/-- `ComparisonPatchesSelector::new(measure)`: the selector records the
similarity measure it scores candidates with. -/
structure ComparisonPatchesSelector where
  sim_measure : PatchSimilarityMeasure
deriving DecidableEq, Repr

/-- Modelled from the spec: the opaque trained regression-model handle
loaded by the Fullband variant; the core only stores and queries it. -/
structure SvrModel where
  handle : Nat
deriving DecidableEq, Repr

/-- The closed set of quality mappers dispatched by `VisqolManager::new`.
`speech b` is `SpeechSimilarityToQualityMapper::new(b)`: modelled from the
spec, `b = true` rescales the output into the bounded MOS-like range and
`b = false` returns the unscaled fitted value. `svr m` is the
regression-model mapper holding its loaded model handle. -/
inductive SimilarityToQualityMapper where
  | speech (scale_to_max_mos : Bool)
  | svr (model : SvrModel)
deriving DecidableEq, Repr

/-- Result of one successful comparison, from `similarity_result.rs` (not
under `src/`): the MOS-LQO plus per-patch similarity values. -/
structure SimilarityResult where
  moslqo : ℚ
  fnsim : List ℚ
deriving DecidableEq, Repr

/-- The manager: `search_window`, the configured patch creator, the patch
selector and the quality mapper, exactly the four fields of
`VisqolManager` in `visqol_manager.rs`. The `NUM_BANDS` const generic has
no field; it is threaded to `calculate_similarity` (see `CalcFn`). -/
structure VisqolManager where
  search_window : Nat
  patch_creator : PatchCreator
  patch_selector : ComparisonPatchesSelector
  sim_to_quality_mapper : SimilarityToQualityMapper
deriving DecidableEq, Repr

/-- Type of the external loading collaborator `audio_utils::load_as_mono`:
reads a path, yields a mono signal or a dynamic error. -/
def LoadFn : Type := String → Except DynError AudioSignal

/-- Type of the external aligner `alignment::globally_align`: returns the
shifted degraded signal and the lag, or `none` when no usable correlation
peak exists. -/
def AlignFn : Type := AudioSignal → AudioSignal → Option (AudioSignal × Int)

/-- Type of the external pipeline `visqol::calculate_similarity`: takes
`NUM_BANDS`, the two signals, and the manager's strategies (the creator and
the mapper through `&mut` in Rust, hence the returned pair of possibly
updated strategies), plus the search window. -/
def CalcFn : Type :=
  Nat → AudioSignal → AudioSignal → PatchCreator → ComparisonPatchesSelector →
    SimilarityToQualityMapper → Nat →
    Except DynError SimilarityResult × PatchCreator × SimilarityToQualityMapper

/-- Constructor of the speech quality mapper. `visqol_manager.rs` passes it
`!use_unscaled_mos_mapping`. -/
def SpeechSimilarityToQualityMapper.new (scale_to_max_mos : Bool) :
    SimilarityToQualityMapper :=
  SimilarityToQualityMapper.speech scale_to_max_mos

/-- Modelled from the spec: `svr_similarity_to_quality_mapper.rs` is not
under `src/`. Construction loads the model from `model_path` through the
model-loading collaborator and fails fatally when the model cannot be
loaded or parsed. -/
def SvrSimilarityToQualityMapper.new
    (load_model : String → Except DynError SvrModel) (model_path : String) :
    Except DynError SimilarityToQualityMapper :=
  (load_model model_path).map SimilarityToQualityMapper.svr

/-- `VisqolManager::new(variant, window_size)`: the Wideband variant pairs
the voice-activity patch creator (audio patch size) with the speech mapper
fed the negated flag; the Fullband variant pairs the uniform-grid (image)
patch creator (speech patch size) with the regression-model mapper loaded
from `model_path`. The patch selector always gets the NSIM measure. The
fallible model load is the only failure, surfaced to the caller.
`of_pair` renders the single `Self { .. }` construction performed after
the dispatch, with the selector always built over the NSIM measure. -/
def VisqolManager.of_pair (window_size : Nat)
    (pair : PatchCreator × SimilarityToQualityMapper) : VisqolManager :=
  { search_window := window_size
    patch_creator := pair.1
    patch_selector := { sim_measure := PatchSimilarityMeasure.nsim }
    sim_to_quality_mapper := pair.2 }

/-- Dispatch of `VisqolManager::new` over the variant (see `of_pair`
above for the final record construction). -/
def VisqolManager.new (load_model : String → Except DynError SvrModel)
    (variant : Variant) (window_size : Nat) :
    Except DynError VisqolManager :=
  match variant with
  | Variant.Wideband use_unscaled_mos_mapping =>
      Except.ok (VisqolManager.of_pair window_size
        (PatchCreator.vad PATCH_SIZE_AUDIO,
          SpeechSimilarityToQualityMapper.new (!use_unscaled_mos_mapping)))
  | Variant.Fullband model_path =>
      match SvrSimilarityToQualityMapper.new load_model model_path with
      | Except.error e => Except.error e
      | Except.ok mapper =>
          Except.ok (VisqolManager.of_pair window_size
            (PatchCreator.image PATCH_SIZE_SPEECH, mapper))

/-- Condition under which `validate_input_audio` logs its duration warning
(`log::warn!`). Logging is the branch's only effect; the returned value is
unaffected. -/
def VisqolManager.duration_mismatch_warning
    (ref_signal deg_signal : AudioSignal) : Bool :=
  decide (|ref_signal.get_duration - deg_signal.get_duration| >
    DURATION_MISMATCH_TOLERANCE)

/-- `VisqolManager::validate_input_audio`: differing sample rates yield the
`DifferentSampleRates` error carrying both rates; otherwise the duration
check only logs (both branches return `Ok(())`). -/
def VisqolManager.validate_input_audio
    (ref_signal deg_signal : AudioSignal) : Except VisqolError Unit :=
  if ref_signal.sample_rate ≠ deg_signal.sample_rate then
    Except.error (VisqolError.differentSampleRates ref_signal.sample_rate
      deg_signal.sample_rate)
  else if VisqolManager.duration_mismatch_warning ref_signal deg_signal then
    Except.ok ()
  else
    Except.ok ()

/-- `VisqolManager::compute_results`: align globally (erroring with
`FailedToAlignSignals` when the aligner returns no result), then hand the
signals and the manager's strategies to `calculate_similarity`. The
strategies passed by `&mut` come back possibly updated, giving the
post-call manager. -/
def VisqolManager.compute_results (globally_align : AlignFn)
    (calculate_similarity : CalcFn) (num_bands : Nat) (m : VisqolManager)
    (ref_signal deg_signal : AudioSignal) :
    Except DynError SimilarityResult × VisqolManager :=
  match globally_align ref_signal deg_signal with
  | none =>
      (Except.error (DynError.visqol VisqolError.failedToAlignSignals), m)
  | some (deg_aligned, _) =>
      let out := calculate_similarity num_bands ref_signal deg_aligned
        m.patch_creator m.patch_selector m.sim_to_quality_mapper
        m.search_window
      (out.1, { m with patch_creator := out.2.1
                       sim_to_quality_mapper := out.2.2 })

/-- `VisqolManager::run`: load the reference signal, load the degraded
signal, validate, then delegate to `compute_results`; each `?` returns the
error unchanged (a `VisqolError` is boxed into the dynamic error type). -/
def VisqolManager.run (load_as_mono : LoadFn) (globally_align : AlignFn)
    (calculate_similarity : CalcFn) (num_bands : Nat) (m : VisqolManager)
    (ref_signal_path deg_signal_path : String) :
    Except DynError SimilarityResult × VisqolManager :=
  match load_as_mono ref_signal_path with
  | Except.error e => (Except.error e, m)
  | Except.ok ref_signal =>
      match load_as_mono deg_signal_path with
      | Except.error e => (Except.error e, m)
      | Except.ok deg_signal =>
          match VisqolManager.validate_input_audio ref_signal deg_signal with
          | Except.error e => (Except.error (DynError.visqol e), m)
          | Except.ok _ =>
              VisqolManager.compute_results globally_align
                calculate_similarity num_bands m ref_signal deg_signal

/-
Concrete fixtures used by the witness theorems below.
-/

/-- A 16 kHz mono signal, one millisecond of silence. -/
def sig16k : AudioSignal :=
  { samples := List.replicate 16 0, sample_rate := 16000 }

/-- An 8 kHz mono signal: its sample rate differs from `sig16k`. -/
def sig8k : AudioSignal :=
  { samples := List.replicate 8 0, sample_rate := 8000 }

/-- A 1 Hz signal lasting 10 seconds (used for the duration-mismatch
witness; the contrived rate keeps the arithmetic tiny). -/
def sigLong : AudioSignal :=
  { samples := List.replicate 10 0, sample_rate := 1 }

/-- A 1 Hz signal lasting 1 second. -/
def sigShort : AudioSignal :=
  { samples := List.replicate 1 0, sample_rate := 1 }

/-- Path of the reference file in the witnesses. -/
def pathRef : String := "ref.wav"

/-- Path of the degraded file in the witnesses. -/
def pathDeg : String := "deg.wav"

/-- A concrete external I/O error. -/
def errRefLoad : DynError := DynError.external "cannot decode reference"

/-- A second, distinct external I/O error. -/
def errDegLoad : DynError := DynError.external "cannot decode degraded"

/-- A loader resolving the reference path to the 16 kHz signal and every
other path to the 8 kHz signal. -/
def loadMismatch : LoadFn := fun p =>
  if p = pathRef then Except.ok sig16k else Except.ok sig8k

/-- A loader resolving every path to the 16 kHz signal. -/
def loadBoth16k : LoadFn := fun _ => Except.ok sig16k

/-- A loader failing on every path, with an error naming which path. -/
def loadAllFail : LoadFn := fun p =>
  if p = pathRef then Except.error errRefLoad else Except.error errDegLoad

/-- A loader failing on the degraded path only. -/
def loadDegFail : LoadFn := fun p =>
  if p = pathRef then Except.ok sig16k else Except.error errDegLoad

/-- An aligner that never finds a correlation peak. -/
def alignNone : AlignFn := fun _ _ => none

/-- An aligner that returns the degraded signal unshifted. -/
def alignId : AlignFn := fun _ deg => some (deg, 0)

/-- A similarity pipeline returning a fixed score and leaving the
strategies untouched. -/
def calcConst : CalcFn := fun _ _ _ pc _ mp _ =>
  (Except.ok { moslqo := 3, fnsim := [1] }, pc, mp)

/-- A Wideband-configured manager fixture. -/
def mgrW : VisqolManager :=
  { search_window := 60
    patch_creator := PatchCreator.vad PATCH_SIZE_AUDIO
    patch_selector := { sim_measure := PatchSimilarityMeasure.nsim }
    sim_to_quality_mapper := SimilarityToQualityMapper.speech true }

/-- C1: when the two loaded signals have different sample rates, `run`
fails with the `DifferentSampleRates` error carrying both rates, leaves
the manager untouched, and the result is the same for every aligner and
every similarity pipeline — no alignment or scoring work influences it,
so no further pipeline stage runs. -/
theorem C1_sample_rate_mismatch_fails_before_pipeline
    (load_as_mono : LoadFn) (globally_align : AlignFn)
    (calculate_similarity : CalcFn) (num_bands : Nat) (m : VisqolManager)
    (p q : String) (r d : AudioSignal)
    (hr : load_as_mono p = Except.ok r) (hd : load_as_mono q = Except.ok d)
    (hne : r.sample_rate ≠ d.sample_rate) :
    VisqolManager.run load_as_mono globally_align calculate_similarity
        num_bands m p q =
      (Except.error (DynError.visqol (VisqolError.differentSampleRates
        r.sample_rate d.sample_rate)), m) := by
  unfold VisqolManager.run
  rw [hr, hd]
  unfold VisqolManager.validate_input_audio
  simp [hne]

theorem C1_witness :
    VisqolManager.run loadMismatch alignId calcConst 21 mgrW pathRef pathDeg
      = (Except.error (DynError.visqol (VisqolError.differentSampleRates
          16000 8000)), mgrW) :=
  C1_sample_rate_mismatch_fails_before_pipeline loadMismatch alignId
    calcConst 21 mgrW pathRef pathDeg sig16k sig8k (by rfl) (by rfl)
    (by decide)

/-- C2: when global alignment returns no result, `compute_results` fails
with the `FailedToAlignSignals` error, leaves the manager untouched, and
the result is the same for every similarity pipeline — patch creation,
selection and mapping never run, and nothing is retried. -/
theorem C2_alignment_failure_aborts
    (globally_align : AlignFn) (calculate_similarity : CalcFn)
    (num_bands : Nat) (m : VisqolManager) (r d : AudioSignal)
    (h : globally_align r d = none) :
    VisqolManager.compute_results globally_align calculate_similarity
        num_bands m r d =
      (Except.error (DynError.visqol VisqolError.failedToAlignSignals), m) := by
  unfold VisqolManager.compute_results
  rw [h]

theorem C2_witness :
    VisqolManager.compute_results alignNone calcConst 21 mgrW sig16k sig16k
      = (Except.error (DynError.visqol VisqolError.failedToAlignSignals),
         mgrW) :=
  C2_alignment_failure_aborts alignNone calcConst 21 mgrW sig16k sig16k rfl

/-- C3: `run` loads the reference, loads the degraded signal, validates,
then delegates to `compute_results`: (1) a reference-load error is
returned unchanged; (2) a degraded-load error is returned unchanged;
(3) when both loads succeed and validation passes, `run` is exactly
`compute_results` on the loaded signals. The `Except` result type itself
guarantees that an error case carries no `SimilarityResult` — no partial
or substituted score exists alongside an error. -/
theorem C3_run_order_propagation_and_delegation
    (load_as_mono : LoadFn) (globally_align : AlignFn)
    (calculate_similarity : CalcFn) (num_bands : Nat) (m : VisqolManager)
    (p q : String) :
    (∀ e, load_as_mono p = Except.error e →
      VisqolManager.run load_as_mono globally_align calculate_similarity
        num_bands m p q = (Except.error e, m)) ∧
    (∀ r e, load_as_mono p = Except.ok r → load_as_mono q = Except.error e →
      VisqolManager.run load_as_mono globally_align calculate_similarity
        num_bands m p q = (Except.error e, m)) ∧
    (∀ r d, load_as_mono p = Except.ok r → load_as_mono q = Except.ok d →
      VisqolManager.validate_input_audio r d = Except.ok () →
      VisqolManager.run load_as_mono globally_align calculate_similarity
          num_bands m p q =
        VisqolManager.compute_results globally_align calculate_similarity
          num_bands m r d) := by
  refine ⟨fun e he => ?_, fun r e hr he => ?_, fun r d hr hd hv => ?_⟩
  · unfold VisqolManager.run
    rw [he]
  · unfold VisqolManager.run
    rw [hr, he]
  · unfold VisqolManager.run
    rw [hr, hd]
    simp [hv]

theorem C3_witness :
    VisqolManager.run loadDegFail alignId calcConst 21 mgrW pathRef pathDeg
      = (Except.error errDegLoad, mgrW) :=
  (C3_run_order_propagation_and_delegation loadDegFail alignId calcConst 21
    mgrW pathRef pathDeg).2.1 sig16k errDegLoad (by rfl) (by rfl)

/-- C4: a duration mismatch is never fatal. Whenever the sample rates are
equal, `validate_input_audio` returns `Ok(())`, whatever the two
durations are — in particular also when their absolute difference exceeds
`DURATION_MISMATCH_TOLERANCE`, where only the warning fires (see
`VisqolManager.duration_mismatch_warning`). -/
theorem C4_duration_mismatch_not_fatal (r d : AudioSignal)
    (h : r.sample_rate = d.sample_rate) :
    VisqolManager.validate_input_audio r d = Except.ok () := by
  unfold VisqolManager.validate_input_audio
  simp [h]

theorem C4_witness :
    VisqolManager.duration_mismatch_warning sigLong sigShort = true ∧
    VisqolManager.validate_input_audio sigLong sigShort = Except.ok () := by
  refine ⟨?_, C4_duration_mismatch_not_fatal sigLong sigShort (by decide)⟩
  simp only [VisqolManager.duration_mismatch_warning,
    AudioSignal.get_duration, sigLong, sigShort,
    DURATION_MISMATCH_TOLERANCE, decide_eq_true_eq]
  norm_num

/-- C10: `run` loads the reference strictly first. When loading the
reference path fails, `run` returns exactly that error with the manager
untouched, for every loader behaviour at the degraded path (the loader's
value at `q` is unconstrained by the hypothesis) and for every aligner
and similarity pipeline — the degraded file's load result, validation and
computation never influence the outcome. In particular, when both paths
are unreadable the reported error is the reference's. -/
theorem C10_reference_load_error_wins
    (load_as_mono : LoadFn) (globally_align : AlignFn)
    (calculate_similarity : CalcFn) (num_bands : Nat) (m : VisqolManager)
    (p q : String) (e : DynError)
    (h : load_as_mono p = Except.error e) :
    VisqolManager.run load_as_mono globally_align calculate_similarity
      num_bands m p q = (Except.error e, m) := by
  unfold VisqolManager.run
  rw [h]

theorem C10_witness :
    loadAllFail pathDeg = Except.error errDegLoad ∧
    VisqolManager.run loadAllFail alignId calcConst 21 mgrW pathRef pathDeg
      = (Except.error errRefLoad, mgrW) :=
  ⟨by rfl, C10_reference_load_error_wins loadAllFail alignId calcConst 21
    mgrW pathRef pathDeg errRefLoad (by rfl)⟩

/-- A model loader succeeding on every path with a fixed handle. -/
def loadModelOk : String → Except DynError SvrModel :=
  fun _ => Except.ok { handle := 7 }

/-- A concrete model-load error. -/
def errModelLoad : DynError := DynError.external "cannot parse model file"

/-- A model loader failing on every path. -/
def loadModelFail : String → Except DynError SvrModel :=
  fun _ => Except.error errModelLoad

/-- Path of the model file in the witnesses. -/
def pathModel : String := "model.txt"

/-- C5: `new` supports exactly the two configurations selected by the
variant. Wideband yields the voice-activity creator with the audio
patch-size constant paired with the speech mapper (fed the negated flag);
Fullband, once its model loads, yields the uniform-grid (image) creator
with the speech patch-size constant paired with the regression-model
mapper. In both configurations the patch selector's similarity measure is
the NSIM measure. -/
theorem C5_new_two_closed_configurations
    (load_model : String → Except DynError SvrModel) (window_size : Nat) :
    (∀ b : Bool,
      VisqolManager.new load_model (Variant.Wideband b) window_size =
        Except.ok
          { search_window := window_size
            patch_creator := PatchCreator.vad PATCH_SIZE_AUDIO
            patch_selector := { sim_measure := PatchSimilarityMeasure.nsim }
            sim_to_quality_mapper := SimilarityToQualityMapper.speech (!b) }) ∧
    (∀ (path : String) (model : SvrModel),
      load_model path = Except.ok model →
      VisqolManager.new load_model (Variant.Fullband path) window_size =
        Except.ok
          { search_window := window_size
            patch_creator := PatchCreator.image PATCH_SIZE_SPEECH
            patch_selector := { sim_measure := PatchSimilarityMeasure.nsim }
            sim_to_quality_mapper := SimilarityToQualityMapper.svr model }) := by
  constructor
  · intro b
    rfl
  · intro path model h
    have hmapper : SvrSimilarityToQualityMapper.new load_model path =
        Except.ok (SimilarityToQualityMapper.svr model) := by
      unfold SvrSimilarityToQualityMapper.new
      rw [h]
      rfl
    simp [VisqolManager.new, VisqolManager.of_pair, hmapper]

theorem C5_witness :
    VisqolManager.new loadModelOk (Variant.Wideband false) 60 =
      Except.ok
        { search_window := 60
          patch_creator := PatchCreator.vad PATCH_SIZE_AUDIO
          patch_selector := { sim_measure := PatchSimilarityMeasure.nsim }
          sim_to_quality_mapper := SimilarityToQualityMapper.speech true } ∧
    VisqolManager.new loadModelOk (Variant.Fullband pathModel) 60 =
      Except.ok
        { search_window := 60
          patch_creator := PatchCreator.image PATCH_SIZE_SPEECH
          patch_selector := { sim_measure := PatchSimilarityMeasure.nsim }
          sim_to_quality_mapper :=
            SimilarityToQualityMapper.svr { handle := 7 } } :=
  ⟨(C5_new_two_closed_configurations loadModelOk 60).1 false,
   (C5_new_two_closed_configurations loadModelOk 60).2 pathModel
     { handle := 7 } rfl⟩

/-- C6: for the Wideband variant the speech mapper receives the negation
of `use_unscaled_mos_mapping`. With the flag `false` the constructed
mapper rescales into the bounded MOS-like range (`scale_to_max_mos =
true`); with the flag `true` it returns the unscaled fitted value
(`scale_to_max_mos = false`). -/
theorem C6_wideband_flag_negated
    (load_model : String → Except DynError SvrModel) (window_size : Nat) :
    (∃ m : VisqolManager,
      VisqolManager.new load_model (Variant.Wideband false) window_size =
        Except.ok m ∧
      m.sim_to_quality_mapper = SimilarityToQualityMapper.speech true) ∧
    (∃ m : VisqolManager,
      VisqolManager.new load_model (Variant.Wideband true) window_size =
        Except.ok m ∧
      m.sim_to_quality_mapper = SimilarityToQualityMapper.speech false) :=
  ⟨⟨_, rfl, rfl⟩, ⟨_, rfl, rfl⟩⟩

/-- C7: constructing a Fullband manager over a model path on which the
model loader fails yields that load error from `new` itself — the failure
is reported to the caller at construction time, so no manager value
exists and `run` is never invoked. -/
theorem C7_fullband_model_load_failure_at_construction
    (load_model : String → Except DynError SvrModel) (window_size : Nat)
    (path : String) (e : DynError)
    (h : load_model path = Except.error e) :
    VisqolManager.new load_model (Variant.Fullband path) window_size =
      Except.error e := by
  have hmapper : SvrSimilarityToQualityMapper.new load_model path =
      Except.error e := by
    unfold SvrSimilarityToQualityMapper.new
    rw [h]
    rfl
  simp [VisqolManager.new, hmapper]

theorem C7_witness :
    VisqolManager.new loadModelFail (Variant.Fullband pathModel) 60 =
      Except.error errModelLoad :=
  C7_fullband_model_load_failure_at_construction loadModelFail 60 pathModel
    errModelLoad rfl

/-- Helper for C9: `compute_results` preserves the whole manager whenever
the similarity pipeline leaves the strategies it received unchanged
through the Rust `&mut` borrows. -/
theorem compute_results_preserves_manager
    (globally_align : AlignFn) (calculate_similarity : CalcFn)
    (num_bands : Nat) (m : VisqolManager) (r d : AudioSignal)
    (hcalc : ∀ nb a b pc ps mp w,
      (calculate_similarity nb a b pc ps mp w).2 = (pc, mp)) :
    (VisqolManager.compute_results globally_align calculate_similarity
      num_bands m r d).2 = m := by
  unfold VisqolManager.compute_results
  cases globally_align r d with
  | none => rfl
  | some pair =>
      cases pair with
      | mk deg_aligned lag =>
          simp only [hcalc]

/-- C9: the manager's configuration is immutable across invocations. The
`search_window` and `patch_selector` fields are preserved by `run`
unconditionally (Rust passes them by value and by shared reference), and
under the spec's guarantee that the collaborating pipeline never mutates
the strategies lent to it by `&mut` (patch creators are pure, mapper
state is read-only during scoring), one `run` and one `compute_results`
call each return the manager exactly as configured — hence, by
induction, any sequence of calls leaves it unchanged. -/
theorem C9_manager_configuration_immutable
    (load_as_mono : LoadFn) (globally_align : AlignFn)
    (calculate_similarity : CalcFn) (num_bands : Nat) (m : VisqolManager)
    (p q : String) (r d : AudioSignal)
    (hcalc : ∀ nb a b pc ps mp w,
      (calculate_similarity nb a b pc ps mp w).2 = (pc, mp)) :
    (VisqolManager.run load_as_mono globally_align calculate_similarity
        num_bands m p q).2 = m ∧
    (VisqolManager.compute_results globally_align calculate_similarity
        num_bands m r d).2 = m := by
  constructor
  · rcases hl : load_as_mono p with e | ref_signal
    · unfold VisqolManager.run
      rw [hl]
    · rcases hq : load_as_mono q with e | deg_signal
      · unfold VisqolManager.run
        rw [hl, hq]
      · rcases hv : VisqolManager.validate_input_audio ref_signal deg_signal
          with e | u
        · unfold VisqolManager.run
          rw [hl, hq]
          simp [hv]
        · unfold VisqolManager.run
          rw [hl, hq]
          simp only [hv]
          exact compute_results_preserves_manager globally_align
            calculate_similarity num_bands m ref_signal deg_signal hcalc
  · exact compute_results_preserves_manager globally_align
      calculate_similarity num_bands m r d hcalc

theorem C9_witness :
    (VisqolManager.run loadBoth16k alignId calcConst 21 mgrW pathRef
        pathDeg).2 = mgrW ∧
    (VisqolManager.compute_results alignId calcConst 21 mgrW sig16k
        sig16k).2 = mgrW :=
  C9_manager_configuration_immutable loadBoth16k alignId calcConst 21 mgrW
    pathRef pathDeg sig16k sig16k (fun _ _ _ _ _ _ _ => rfl)
